import Mathlib

/-!
Verification development for the paramak parametric-reactor core:
shallow embedding of the 2D profile generators, the radial/vertical
build sequencer of `SubmersionTokamak`, the `InboardFirstwallFCCS`
dispatch, the ITER-type divertor profile construction, and the
geometric primitives, together with theorems settling the spec claims.
-/

namespace Paramak

/-- Error kind raised for parameter ordering/range violations and bad
enum values (surfaced as `ValueError` in the implementation, named
`InvalidParameter` in the design). -/
inductive ParamakError where
  | invalidParameter (msg : String)
deriving DecidableEq, Repr

/-- Error kind for degenerate geometry (zero-length direction vectors). -/
inductive GeomError where
  | degenerateGeometry
deriving DecidableEq, Repr

/-- Connection tag attached to a profile point, describing how the next
point in the sequence connects to it. -/
inductive Conn where
  | straight
  | circle
  | spline
deriving DecidableEq, Repr


/-! ## SubmersionTokamak: parameters and build sequencer

Embedding of `paramak/parametric_reactors/submersion_reactor.py`.
Thicknesses are exact rationals; the plasma high point (computed by the
external `paramak.Plasma` class, not part of this repository's core) is
taken as an input coordinate pair. -/

/-- Radial/vertical thickness parameters of `SubmersionTokamak.__init__`
that feed the build sequencer. -/
structure SubmersionTokamak where
  inner_bore_radial_thickness : ℚ
  inboard_tf_leg_radial_thickness : ℚ
  center_column_shield_radial_thickness : ℚ
  inboard_blanket_radial_thickness : ℚ
  firstwall_radial_thickness : ℚ
  inner_plasma_gap_radial_thickness : ℚ
  plasma_radial_thickness : ℚ
  divertor_radial_thickness : ℚ
  support_radial_thickness : ℚ
  outer_plasma_gap_radial_thickness : ℚ
  outboard_blanket_radial_thickness : ℚ
  blanket_rear_wall_radial_thickness : ℚ


/-- Result of `SubmersionTokamak._make_radial_build`: every
`_*_start_radius` / `_*_end_radius` attribute assigned by that method
(the optional outboard-tf-coil radii are omitted; they depend on
optional parameters and are not part of the claims). -/
structure RadialBuild where
  inner_bore_start_radius : ℚ
  inner_bore_end_radius : ℚ
  inboard_tf_coils_start_radius : ℚ
  inboard_tf_coils_end_radius : ℚ
  center_column_shield_start_radius : ℚ
  center_column_shield_end_radius : ℚ
  inboard_blanket_start_radius : ℚ
  inboard_blanket_end_radius : ℚ
  inboard_firstwall_start_radius : ℚ
  inboard_firstwall_end_radius : ℚ
  inner_plasma_gap_start_radius : ℚ
  inner_plasma_gap_end_radius : ℚ
  plasma_start_radius : ℚ
  plasma_end_radius : ℚ
  outer_plasma_gap_start_radius : ℚ
  outer_plasma_gap_end_radius : ℚ
  outboard_firstwall_start_radius : ℚ
  outboard_firstwall_end_radius : ℚ
  outboard_blanket_start_radius : ℚ
  outboard_blanket_end_radius : ℚ
  blanket_rear_wall_start_radius : ℚ
  blanket_rear_wall_end_radius : ℚ
  divertor_start_radius : ℚ
  divertor_end_radius : ℚ
  support_start_radius : ℚ
  support_end_radius : ℚ


/-- Embedding of `SubmersionTokamak._make_radial_build`.  `high_point`
is `self._plasma.high_point`; each field is assigned exactly as in the
source, the cursor chain first and the divertor/support bands (centred
on the plasma high point) afterwards. -/
def makeRadialBuild (p : SubmersionTokamak) (high_point : ℚ × ℚ) : RadialBuild :=
  let inner_bore_start_radius : ℚ := 0
  let inner_bore_end_radius :=
    inner_bore_start_radius + p.inner_bore_radial_thickness
  let inboard_tf_coils_start_radius := inner_bore_end_radius
  let inboard_tf_coils_end_radius :=
    inboard_tf_coils_start_radius + p.inboard_tf_leg_radial_thickness
  let center_column_shield_start_radius := inboard_tf_coils_end_radius
  let center_column_shield_end_radius :=
    center_column_shield_start_radius + p.center_column_shield_radial_thickness
  let inboard_blanket_start_radius := center_column_shield_end_radius
  let inboard_blanket_end_radius :=
    inboard_blanket_start_radius + p.inboard_blanket_radial_thickness
  let inboard_firstwall_start_radius := inboard_blanket_end_radius
  let inboard_firstwall_end_radius :=
    inboard_firstwall_start_radius + p.firstwall_radial_thickness
  let inner_plasma_gap_start_radius := inboard_firstwall_end_radius
  let inner_plasma_gap_end_radius :=
    inner_plasma_gap_start_radius + p.inner_plasma_gap_radial_thickness
  let plasma_start_radius := inner_plasma_gap_end_radius
  let plasma_end_radius := plasma_start_radius + p.plasma_radial_thickness
  let outer_plasma_gap_start_radius := plasma_end_radius
  let outer_plasma_gap_end_radius :=
    outer_plasma_gap_start_radius + p.outer_plasma_gap_radial_thickness
  let outboard_firstwall_start_radius := outer_plasma_gap_end_radius
  let outboard_firstwall_end_radius :=
    outboard_firstwall_start_radius + p.firstwall_radial_thickness
  let outboard_blanket_start_radius := outboard_firstwall_end_radius
  let outboard_blanket_end_radius :=
    outboard_blanket_start_radius + p.outboard_blanket_radial_thickness
  let blanket_rear_wall_start_radius := outboard_blanket_end_radius
  let blanket_rear_wall_end_radius :=
    blanket_rear_wall_start_radius + p.blanket_rear_wall_radial_thickness
  { inner_bore_start_radius := inner_bore_start_radius
    inner_bore_end_radius := inner_bore_end_radius
    inboard_tf_coils_start_radius := inboard_tf_coils_start_radius
    inboard_tf_coils_end_radius := inboard_tf_coils_end_radius
    center_column_shield_start_radius := center_column_shield_start_radius
    center_column_shield_end_radius := center_column_shield_end_radius
    inboard_blanket_start_radius := inboard_blanket_start_radius
    inboard_blanket_end_radius := inboard_blanket_end_radius
    inboard_firstwall_start_radius := inboard_firstwall_start_radius
    inboard_firstwall_end_radius := inboard_firstwall_end_radius
    inner_plasma_gap_start_radius := inner_plasma_gap_start_radius
    inner_plasma_gap_end_radius := inner_plasma_gap_end_radius
    plasma_start_radius := plasma_start_radius
    plasma_end_radius := plasma_end_radius
    outer_plasma_gap_start_radius := outer_plasma_gap_start_radius
    outer_plasma_gap_end_radius := outer_plasma_gap_end_radius
    outboard_firstwall_start_radius := outboard_firstwall_start_radius
    outboard_firstwall_end_radius := outboard_firstwall_end_radius
    outboard_blanket_start_radius := outboard_blanket_start_radius
    outboard_blanket_end_radius := outboard_blanket_end_radius
    blanket_rear_wall_start_radius := blanket_rear_wall_start_radius
    blanket_rear_wall_end_radius := blanket_rear_wall_end_radius
    divertor_start_radius := high_point.1 - (1/2) * p.divertor_radial_thickness
    divertor_end_radius := high_point.1 + (1/2) * p.divertor_radial_thickness
    support_start_radius := high_point.1 - (1/2) * p.support_radial_thickness
    support_end_radius := high_point.1 + (1/2) * p.support_radial_thickness }

/-- Result of `SubmersionTokamak._make_vertical_build` (the optional
outboard-tf-coil quantities are omitted, as in `RadialBuild`). -/
structure VerticalBuild where
  plasma_start_height : ℚ
  plasma_end_height : ℚ
  plasma_to_divertor_gap_start_height : ℚ
  plasma_to_divertor_gap_end_height : ℚ
  firstwall_start_height : ℚ
  firstwall_end_height : ℚ
  blanket_start_height : ℚ
  blanket_end_height : ℚ
  blanket_rear_wall_start_height : ℚ
  blanket_rear_wall_end_height : ℚ


/-- Embedding of `SubmersionTokamak._make_vertical_build`; `high_point`
is `self._plasma.high_point`, so the plasma's vertical interval ends at
`high_point[1]`. -/
def makeVerticalBuild (p : SubmersionTokamak) (high_point : ℚ × ℚ) : VerticalBuild :=
  let plasma_start_height : ℚ := 0
  let plasma_end_height := high_point.2
  let plasma_to_divertor_gap_start_height := plasma_end_height
  let plasma_to_divertor_gap_end_height :=
    plasma_to_divertor_gap_start_height + p.outer_plasma_gap_radial_thickness
  let firstwall_start_height := plasma_to_divertor_gap_end_height
  let firstwall_end_height := firstwall_start_height + p.firstwall_radial_thickness
  let blanket_start_height := firstwall_end_height
  let blanket_end_height := blanket_start_height + p.outboard_blanket_radial_thickness
  let blanket_rear_wall_start_height := blanket_end_height
  let blanket_rear_wall_end_height :=
    blanket_rear_wall_start_height + p.blanket_rear_wall_radial_thickness
  { plasma_start_height := plasma_start_height
    plasma_end_height := plasma_end_height
    plasma_to_divertor_gap_start_height := plasma_to_divertor_gap_start_height
    plasma_to_divertor_gap_end_height := plasma_to_divertor_gap_end_height
    firstwall_start_height := firstwall_start_height
    firstwall_end_height := firstwall_end_height
    blanket_start_height := blanket_start_height
    blanket_end_height := blanket_end_height
    blanket_rear_wall_start_height := blanket_rear_wall_start_height
    blanket_rear_wall_end_height := blanket_rear_wall_end_height }

/-- The radial cursor-walk intervals of `_make_radial_build`, in build
order (the divertor and support bands are positioned by the second
derivation rule, not by the cursor walk, and are not in this list). -/
def radialIntervals (b : RadialBuild) : List (ℚ × ℚ) :=
  [ (b.inner_bore_start_radius, b.inner_bore_end_radius),
    (b.inboard_tf_coils_start_radius, b.inboard_tf_coils_end_radius),
    (b.center_column_shield_start_radius, b.center_column_shield_end_radius),
    (b.inboard_blanket_start_radius, b.inboard_blanket_end_radius),
    (b.inboard_firstwall_start_radius, b.inboard_firstwall_end_radius),
    (b.inner_plasma_gap_start_radius, b.inner_plasma_gap_end_radius),
    (b.plasma_start_radius, b.plasma_end_radius),
    (b.outer_plasma_gap_start_radius, b.outer_plasma_gap_end_radius),
    (b.outboard_firstwall_start_radius, b.outboard_firstwall_end_radius),
    (b.outboard_blanket_start_radius, b.outboard_blanket_end_radius),
    (b.blanket_rear_wall_start_radius, b.blanket_rear_wall_end_radius) ]

/-- The declared thickness consumed by each radial cursor-walk entry,
in the same order as `radialIntervals`. -/
def radialThicknesses (p : SubmersionTokamak) : List ℚ :=
  [ p.inner_bore_radial_thickness,
    p.inboard_tf_leg_radial_thickness,
    p.center_column_shield_radial_thickness,
    p.inboard_blanket_radial_thickness,
    p.firstwall_radial_thickness,
    p.inner_plasma_gap_radial_thickness,
    p.plasma_radial_thickness,
    p.outer_plasma_gap_radial_thickness,
    p.firstwall_radial_thickness,
    p.outboard_blanket_radial_thickness,
    p.blanket_rear_wall_radial_thickness ]

/-- The vertical cursor-walk intervals of `_make_vertical_build`, in
build order. -/
def verticalIntervals (v : VerticalBuild) : List (ℚ × ℚ) :=
  [ (v.plasma_start_height, v.plasma_end_height),
    (v.plasma_to_divertor_gap_start_height, v.plasma_to_divertor_gap_end_height),
    (v.firstwall_start_height, v.firstwall_end_height),
    (v.blanket_start_height, v.blanket_end_height),
    (v.blanket_rear_wall_start_height, v.blanket_rear_wall_end_height) ]

/-- The vertical extent consumed by each vertical cursor-walk entry, in
the same order as `verticalIntervals`; the plasma's extent is its
high-point height, the others are declared thicknesses. -/
def verticalThicknesses (p : SubmersionTokamak) (high_point : ℚ × ℚ) : List ℚ :=
  [ high_point.2,
    p.outer_plasma_gap_radial_thickness,
    p.firstwall_radial_thickness,
    p.outboard_blanket_radial_thickness,
    p.blanket_rear_wall_radial_thickness ]

/-- Adjacent intervals abut: each entry's end is the next entry's start. -/
def abutting (l : List (ℚ × ℚ)) : Prop :=
  l.Chain' (fun a b => a.2 = b.1)

/-- No interval extends past the start of any later interval. -/
def nonOverlapping (l : List (ℚ × ℚ)) : Prop :=
  l.Pairwise (fun a b => a.2 ≤ b.1)

/-- Widths: an interval list realises a thickness list when each entry's
end is its start plus the corresponding thickness. -/
def realisesThicknesses (l : List (ℚ × ℚ)) (ts : List ℚ) : Prop :=
  List.Forall₂ (fun iv t => iv.2 = iv.1 + t) l ts

lemma realisesThicknesses_nonneg_width {l : List (ℚ × ℚ)} {ts : List ℚ}
    (h : realisesThicknesses l ts) (hts : ∀ t ∈ ts, 0 ≤ t) :
    ∀ iv ∈ l, iv.1 ≤ iv.2 := by
  induction h with
  | nil => intro iv hiv; cases hiv
  | cons hab _ ih =>
      intro iv hiv
      rcases List.mem_cons.mp hiv with h | h
      · subst h
        have := hts _ (List.mem_cons_self _ _)
        rw [hab]; linarith
      · exact ih (fun t ht => hts t (List.mem_cons_of_mem _ ht)) iv h

lemma abutting_nonneg_nonOverlapping :
    ∀ l : List (ℚ × ℚ), abutting l → (∀ iv ∈ l, iv.1 ≤ iv.2) →
      nonOverlapping l
  | [] , _, _ => List.Pairwise.nil
  | [a], _, _ => by
      unfold nonOverlapping
      exact List.pairwise_singleton _ a
  | a :: b :: l, hchain, hw => by
      unfold abutting at hchain
      rw [List.chain'_cons] at hchain
      have htail : nonOverlapping (b :: l) :=
        abutting_nonneg_nonOverlapping (b :: l) hchain.2
          (fun iv hiv => hw iv (List.mem_cons_of_mem _ hiv))
      unfold nonOverlapping
      refine List.Pairwise.cons ?_ htail
      intro c hc
      have hb : a.2 ≤ b.1 := le_of_eq hchain.1
      rcases List.mem_cons.mp hc with h | h
      · subst h; exact hb
      · have hbw : b.1 ≤ b.2 := hw b (by simp)
        have hrest : b.2 ≤ c.1 := List.rel_of_pairwise_cons htail h
        linarith

/-- Claim C1: in the SubmersionTokamak radial and vertical builds, the
first component's interval starts at cursor 0, every component's end
equals its start plus its declared thickness, successive components
abut (each start equals the previous end), the gap components occupy
their own abutting intervals, and (for nonnegative thicknesses) no two
intervals overlap. -/
theorem submersion_build_intervals_abut (p : SubmersionTokamak) (high_point : ℚ × ℚ)
    (hr : ∀ t ∈ radialThicknesses p, 0 ≤ t)
    (hv : ∀ t ∈ verticalThicknesses p high_point, 0 ≤ t) :
    ((radialIntervals (makeRadialBuild p high_point)).head?.map Prod.fst = some 0)
    ∧ realisesThicknesses (radialIntervals (makeRadialBuild p high_point))
        (radialThicknesses p)
    ∧ abutting (radialIntervals (makeRadialBuild p high_point))
    ∧ nonOverlapping (radialIntervals (makeRadialBuild p high_point))
    ∧ ((verticalIntervals (makeVerticalBuild p high_point)).head?.map Prod.fst = some 0)
    ∧ realisesThicknesses (verticalIntervals (makeVerticalBuild p high_point))
        (verticalThicknesses p high_point)
    ∧ abutting (verticalIntervals (makeVerticalBuild p high_point))
    ∧ nonOverlapping (verticalIntervals (makeVerticalBuild p high_point)) := by
  have hrr : realisesThicknesses (radialIntervals (makeRadialBuild p high_point))
      (radialThicknesses p) := by
    simp only [realisesThicknesses, radialIntervals, radialThicknesses, makeRadialBuild]
    refine List.Forall₂.cons (by ring) ?_
    refine List.Forall₂.cons (by ring) ?_
    refine List.Forall₂.cons (by ring) ?_
    refine List.Forall₂.cons (by ring) ?_
    refine List.Forall₂.cons (by ring) ?_
    refine List.Forall₂.cons (by ring) ?_
    refine List.Forall₂.cons (by ring) ?_
    refine List.Forall₂.cons (by ring) ?_
    refine List.Forall₂.cons (by ring) ?_
    refine List.Forall₂.cons (by ring) ?_
    exact List.Forall₂.cons (by ring) List.Forall₂.nil
  have hra : abutting (radialIntervals (makeRadialBuild p high_point)) := by
    simp [abutting, radialIntervals, makeRadialBuild, List.chain'_cons]
  have hvr : realisesThicknesses (verticalIntervals (makeVerticalBuild p high_point))
      (verticalThicknesses p high_point) := by
    simp only [realisesThicknesses, verticalIntervals, verticalThicknesses,
      makeVerticalBuild]
    refine List.Forall₂.cons (by ring) ?_
    refine List.Forall₂.cons (by ring) ?_
    refine List.Forall₂.cons (by ring) ?_
    refine List.Forall₂.cons (by ring) ?_
    exact List.Forall₂.cons (by ring) List.Forall₂.nil
  have hva : abutting (verticalIntervals (makeVerticalBuild p high_point)) := by
    simp [abutting, verticalIntervals, makeVerticalBuild, List.chain'_cons]
  refine ⟨by simp [radialIntervals, makeRadialBuild], hrr, hra, ?_,
    by simp [verticalIntervals, makeVerticalBuild], hvr, hva, ?_⟩
  · exact abutting_nonneg_nonOverlapping _ hra
      (realisesThicknesses_nonneg_width hrr hr)
  · exact abutting_nonneg_nonOverlapping _ hva
      (realisesThicknesses_nonneg_width hvr hv)

/-- Witness for C1 at a concrete reactor parameterisation. -/
theorem submersion_build_intervals_abut_witness :
    nonOverlapping (radialIntervals (makeRadialBuild
      ⟨30, 30, 30, 30, 30, 30, 300, 80, 90, 30, 30, 30⟩ (498, 513)))
    ∧ nonOverlapping (verticalIntervals (makeVerticalBuild
      ⟨30, 30, 30, 30, 30, 30, 300, 80, 90, 30, 30, 30⟩ (498, 513))) := by
  have h := submersion_build_intervals_abut
    ⟨30, 30, 30, 30, 30, 30, 300, 80, 90, 30, 30, 30⟩ (498, 513)
    (by intro t ht; fin_cases ht <;> norm_num)
    (by intro t ht; fin_cases ht <;> norm_num)
  exact ⟨h.2.2.2.1, h.2.2.2.2.2.2.2⟩

/-! ## SubmersionTokamak: position enums and `create_solids` warning -/

/-- The string-enum position state of a `SubmersionTokamak`:
`_divertor_position` and `_support_position`. -/
structure SubPositions where
  divertor_position : String
  support_position : String
deriving DecidableEq, Repr

/-- Acceptable values of the `divertor_position` / `support_position`
setters. -/
def acceptable_values : List String := ["upper", "lower", "both"]

/-- Embedding of the `divertor_position` setter: store the value when
acceptable, otherwise raise. -/
def setDivertorPosition (st : SubPositions) (value : String) :
    Except ParamakError SubPositions :=
  if value ∈ acceptable_values then
    Except.ok { st with divertor_position := value }
  else
    Except.error (ParamakError.invalidParameter
      "divertor_position must be upper, lower or both")

/-- Embedding of the `support_position` setter. -/
def setSupportPosition (st : SubPositions) (value : String) :
    Except ParamakError SubPositions :=
  if value ∈ acceptable_values then
    Except.ok { st with support_position := value }
  else
    Except.error (ParamakError.invalidParameter
      "support_position must be upper, lower or both")

/-- Python attribute-assignment semantics of the `divertor_position`
setter: on an exception the stored state is left as it was, and the
error is surfaced. -/
def trySetDivertorPosition (st : SubPositions) (value : String) :
    SubPositions × Option ParamakError :=
  match setDivertorPosition st value with
  | Except.ok st' => (st', none)
  | Except.error e => (st, some e)

/-- Python attribute-assignment semantics of the `support_position`
setter. -/
def trySetSupportPosition (st : SubPositions) (value : String) :
    SubPositions × Option ParamakError :=
  match setSupportPosition st value with
  | Except.ok st' => (st', none)
  | Except.error e => (st, some e)

/-- Claim C7: setting `divertor_position` or `support_position` to any
string outside upper/lower/both fails immediately with
`InvalidParameter` and leaves the previously stored state unchanged;
setting it to an allowed value succeeds and stores that value. -/
theorem submersion_position_setters (st : SubPositions) (value : String) :
    (value ∈ acceptable_values →
      trySetDivertorPosition st value = ({ st with divertor_position := value }, none)
      ∧ trySetSupportPosition st value = ({ st with support_position := value }, none))
    ∧ (value ∉ acceptable_values →
      trySetDivertorPosition st value
        = (st, some (ParamakError.invalidParameter
            "divertor_position must be upper, lower or both"))
      ∧ trySetSupportPosition st value
        = (st, some (ParamakError.invalidParameter
            "support_position must be upper, lower or both"))) := by
  constructor
  · intro hmem
    constructor
    · simp [trySetDivertorPosition, setDivertorPosition, hmem]
    · simp [trySetSupportPosition, setSupportPosition, hmem]
  · intro hmem
    constructor
    · simp [trySetDivertorPosition, setDivertorPosition, hmem]
    · simp [trySetSupportPosition, setSupportPosition, hmem]

/-- Witness for C7: the invalid value "middle" is rejected with the
stored state unchanged, and the valid value "upper" is stored. -/
theorem submersion_position_setters_witness :
    trySetDivertorPosition ⟨"both", "both"⟩ "middle"
      = (⟨"both", "both"⟩, some (ParamakError.invalidParameter
          "divertor_position must be upper, lower or both"))
    ∧ trySetDivertorPosition ⟨"both", "both"⟩ "upper"
      = (⟨"upper", "both"⟩, none) := by
  refine ⟨((submersion_position_setters ⟨"both", "both"⟩ "middle").2 (by decide)).1, ?_⟩
  exact ((submersion_position_setters ⟨"both", "both"⟩ "upper").1 (by decide)).1

/-- Warning events and component constructions performed by
`SubmersionTokamak.create_solids`, in call order. -/
inductive SolidsEvent where
  | warn (msg : String)
  | makeComponent (component : String)
deriving DecidableEq, Repr

/-- True exactly on warning events. -/
def isWarn : SolidsEvent → Bool
  | SolidsEvent.warn _ => true
  | SolidsEvent.makeComponent _ => false

/-- The warning message of `_rotation_angle_check`. -/
def msg360 : String :=
  "360 degree rotation may result in a Standard_ConstructionError or AttributeError"

/-- Embedding of `SubmersionTokamak._rotation_angle_check`: emits one
UserWarning exactly when `rotation_angle == 360`. -/
def rotation_angle_check (rotation_angle : ℚ) : List SolidsEvent :=
  if rotation_angle = 360 then [SolidsEvent.warn msg360] else []

/-- The component constructions of `create_solids`, in source order
(after the angle check and the radial/vertical build computations). -/
def componentMakes : List SolidsEvent :=
  [ SolidsEvent.makeComponent "plasma",
    SolidsEvent.makeComponent "center_column_shield",
    SolidsEvent.makeComponent "firstwall",
    SolidsEvent.makeComponent "blanket",
    SolidsEvent.makeComponent "divertor",
    SolidsEvent.makeComponent "supports",
    SolidsEvent.makeComponent "rear_blanket_wall",
    SolidsEvent.makeComponent "tf_coils",
    SolidsEvent.makeComponent "pf_coils" ]

/-- Embedding of the event order of `SubmersionTokamak.create_solids`:
the rotation-angle check runs first, then every component is built. -/
def create_solids_events (rotation_angle : ℚ) : List SolidsEvent :=
  rotation_angle_check rotation_angle ++ componentMakes

/-- Number of warnings emitted. -/
def countWarnings (l : List SolidsEvent) : ℕ := (l.filter isWarn).length

/-- Claim C10: `create_solids` emits exactly one UserWarning (with the
Standard_ConstructionError / AttributeError message) when and only when
`rotation_angle` equals exactly 360, it is emitted before any component
is constructed, and for any other angle no warning is emitted. -/
theorem submersion_rotation_angle_warning (rotation_angle : ℚ) :
    countWarnings (create_solids_events rotation_angle)
      = (if rotation_angle = 360 then 1 else 0)
    ∧ (create_solids_events rotation_angle).takeWhile isWarn
      = rotation_angle_check rotation_angle
    ∧ (rotation_angle = 360 →
        (create_solids_events rotation_angle).head? = some (SolidsEvent.warn msg360)) := by
  by_cases h : rotation_angle = 360 <;>
    simp [create_solids_events, rotation_angle_check, componentMakes, countWarnings,
      isWarn, msg360, h]

/-- Witness for C10: at exactly 360 degrees one warning is emitted
first; at 180 degrees no warning is emitted. -/
theorem submersion_rotation_angle_warning_witness :
    countWarnings (create_solids_events 360) = 1
    ∧ (create_solids_events 360).head? = some (SolidsEvent.warn msg360)
    ∧ countWarnings (create_solids_events 180) = 0 := by
  have h1 := submersion_rotation_angle_warning 360
  have h2 := submersion_rotation_angle_warning 180
  refine ⟨by simpa using h1.1, h1.2.2 rfl, by simpa using h2.1⟩

/-- Claim C6: after the main cursor walk, the divertor's radial interval
is `[high_x - divertor_radial_thickness/2, high_x + divertor_radial_thickness/2]`
and the supports' is the analogous band for support_radial_thickness,
where `high_x` is the plasma high-point x coordinate; each band's width
equals the component's thickness and is centred on the plasma high
point. -/
theorem submersion_divertor_support_bands (p : SubmersionTokamak) (high_point : ℚ × ℚ) :
    (makeRadialBuild p high_point).divertor_start_radius
        = high_point.1 - p.divertor_radial_thickness / 2
    ∧ (makeRadialBuild p high_point).divertor_end_radius
        = high_point.1 + p.divertor_radial_thickness / 2
    ∧ (makeRadialBuild p high_point).divertor_end_radius
        - (makeRadialBuild p high_point).divertor_start_radius
        = p.divertor_radial_thickness
    ∧ (makeRadialBuild p high_point).divertor_start_radius
        + (makeRadialBuild p high_point).divertor_end_radius = 2 * high_point.1
    ∧ (makeRadialBuild p high_point).support_start_radius
        = high_point.1 - p.support_radial_thickness / 2
    ∧ (makeRadialBuild p high_point).support_end_radius
        = high_point.1 + p.support_radial_thickness / 2
    ∧ (makeRadialBuild p high_point).support_end_radius
        - (makeRadialBuild p high_point).support_start_radius
        = p.support_radial_thickness
    ∧ (makeRadialBuild p high_point).support_start_radius
        + (makeRadialBuild p high_point).support_end_radius = 2 * high_point.1 := by
  simp only [makeRadialBuild]
  refine ⟨by ring, by ring, by ring, by ring, by ring, by ring, by ring, by ring⟩

/-! ## Center-column shield profile generators

Embedding of `parametric_components/center_column_hyperbola.py` and
`parametric_components/center_column_flat_top_circular.py`.  A profile
point is `(x, z, connection)`; `find_points` returns the stored point
list, or the raised error (in which case nothing is stored). -/

/-- Embedding of `CenterColumnShieldHyperbola.find_points`: validates
`inner_radius <= mid_radius <= outer_radius` before building the
six-point profile. -/
def CenterColumnShieldHyperbola.find_points
    (height inner_radius mid_radius outer_radius : ℚ) :
    Except ParamakError (List (ℚ × ℚ × Conn)) :=
  if ¬ (inner_radius ≤ mid_radius ∧ mid_radius ≤ outer_radius) then
    Except.error (ParamakError.invalidParameter
      "inner_radius must be less than mid radius. mid_radius must be less than outer_radius.")
  else
    Except.ok
      [ (inner_radius, 0, Conn.straight),
        (inner_radius, height / 2, Conn.straight),
        (outer_radius, height / 2, Conn.spline),
        (mid_radius, 0, Conn.spline),
        (outer_radius, -(height / 2), Conn.straight),
        (inner_radius, -(height / 2), Conn.straight) ]

/-- Embedding of `CenterColumnShieldFlatTopCircular.find_points`: the
source performs no parameter validation and always stores the
eight-point profile. -/
def CenterColumnShieldFlatTopCircular.find_points
    (height arc_height inner_radius mid_radius outer_radius : ℚ) :
    Except ParamakError (List (ℚ × ℚ × Conn)) :=
  Except.ok
    [ (inner_radius, 0, Conn.straight),
      (inner_radius, height / 2, Conn.straight),
      (outer_radius, height / 2, Conn.straight),
      (outer_radius, arc_height / 2, Conn.circle),
      (mid_radius, 0, Conn.circle),
      (outer_radius, -(arc_height / 2), Conn.straight),
      (outer_radius, -(height / 2), Conn.straight),
      (inner_radius, -(height / 2), Conn.straight) ]

/-- Counterexample to claim C2 as stated: at the spec's own example
`inner_radius=50, mid_radius=30, outer_radius=100` (with height 100 and
arc_height 20), `CenterColumnShieldFlatTopCircular.find_points`
succeeds and stores the full profile instead of raising
`InvalidParameter`, even though `mid_radius < inner_radius`. -/
theorem flat_top_circular_no_mid_radius_validation :
    ¬ ((50 : ℚ) ≤ 30)
    ∧ CenterColumnShieldFlatTopCircular.find_points 100 20 50 30 100
      = Except.ok
        [ (50, 0, Conn.straight),
          (50, 50, Conn.straight),
          (100, 50, Conn.straight),
          (100, 10, Conn.circle),
          (30, 0, Conn.circle),
          (100, -10, Conn.straight),
          (100, -50, Conn.straight),
          (50, -50, Conn.straight) ] := by
  constructor
  · norm_num
  · norm_num [CenterColumnShieldFlatTopCircular.find_points]

/-- Claim C2 as amended: `CenterColumnShieldHyperbola.find_points`
raises `InvalidParameter` immediately when `mid_radius` falls outside
`[inner_radius, outer_radius]`, storing no partial point list, whereas
`CenterColumnShieldFlatTopCircular.find_points` performs no such
validation and stores its full eight-point profile regardless of the
radius ordering. -/
theorem center_column_mid_radius_validation
    (height arc_height inner_radius mid_radius outer_radius : ℚ)
    (hbad : ¬ (inner_radius ≤ mid_radius ∧ mid_radius ≤ outer_radius)) :
    CenterColumnShieldHyperbola.find_points height inner_radius mid_radius outer_radius
      = Except.error (ParamakError.invalidParameter
        "inner_radius must be less than mid radius. mid_radius must be less than outer_radius.")
    ∧ ∃ pts, CenterColumnShieldFlatTopCircular.find_points
        height arc_height inner_radius mid_radius outer_radius = Except.ok pts
      ∧ pts.length = 8 := by
  refine ⟨?_, ?_⟩
  · simp [CenterColumnShieldHyperbola.find_points, hbad]
  · exact ⟨_, rfl, rfl⟩

/-- Witness for C2 (amended) at the spec's example
`inner_radius=50, mid_radius=30, outer_radius=100`. -/
theorem center_column_mid_radius_validation_witness :
    CenterColumnShieldHyperbola.find_points 100 50 30 100
      = Except.error (ParamakError.invalidParameter
        "inner_radius must be less than mid radius. mid_radius must be less than outer_radius.") := by
  exact (center_column_mid_radius_validation 100 20 50 30 100 (by norm_num)).1

/-! ## InboardFirstwallFCCS

Embedding of `parametric_components/inboard_firstwall_fccs.py`.  The
six accepted center-column shield families are a closed inductive; any
other source object is `ShieldObj.other`. -/

/-- Parameter payloads of the six accepted center-column shield
classes. -/
inductive CCShield where
  | cylinder (height inner_radius outer_radius : ℚ)
  | hyperbola (height inner_radius mid_radius outer_radius : ℚ)
  | flatTopHyperbola (height arc_height inner_radius mid_radius outer_radius : ℚ)
  | plasmaHyperbola (height inner_radius mid_offset edge_offset : ℚ)
  | circular (height inner_radius mid_radius outer_radius : ℚ)
  | flatTopCircular (height arc_height inner_radius mid_radius outer_radius : ℚ)
deriving DecidableEq, Repr

/-- A shape object handed to `InboardFirstwallFCCS`: one of the six
accepted shield classes, or any other shape (tagged by name). -/
inductive ShieldObj where
  | known (s : CCShield)
  | other (tag : String)
deriving DecidableEq, Repr

/-- The `cut` attribute of a shape: `None`, a single shape, or an
iterable of shapes. -/
inductive CutAttr (α : Type) where
  | nocut
  | single (a : α)
  | many (l : List α)
deriving DecidableEq, Repr

/-- Embedding of the cut update at the end of
`InboardFirstwallFCCS.find_points`: `None` becomes the shield itself, an
iterable gets the shield appended, a single pre-existing cut becomes a
two-element list. -/
def updateCut {α : Type} (cut : CutAttr α) (shield : α) : CutAttr α :=
  match cut with
  | CutAttr.nocut => CutAttr.single shield
  | CutAttr.many l => CutAttr.many (l ++ [shield])
  | CutAttr.single c => CutAttr.many ([c] ++ [shield])

/-- The shapes contained in a `cut` attribute. -/
def cutEntries {α : Type} : CutAttr α → List α
  | CutAttr.nocut => []
  | CutAttr.single a => [a]
  | CutAttr.many l => l

/-- The derived firstwall shield constructed by
`InboardFirstwallFCCS.find_points`, per source family: `height` and
`inner_radius` (and `arc_height`) are taken unchanged, `mid_radius` /
`outer_radius` get `+ thickness`, and the plasma-hyperbola offsets get
`- thickness`, exactly as in the source dispatch. -/
def InboardFirstwallFCCS.firstwallShield (s : CCShield) (thickness : ℚ) : CCShield :=
  match s with
  | CCShield.cylinder height inner_radius outer_radius =>
      CCShield.cylinder height inner_radius (outer_radius + thickness)
  | CCShield.hyperbola height inner_radius mid_radius outer_radius =>
      CCShield.hyperbola height inner_radius
        (mid_radius + thickness) (outer_radius + thickness)
  | CCShield.flatTopHyperbola height arc_height inner_radius mid_radius outer_radius =>
      CCShield.flatTopHyperbola height arc_height inner_radius
        (mid_radius + thickness) (outer_radius + thickness)
  | CCShield.plasmaHyperbola height inner_radius mid_offset edge_offset =>
      CCShield.plasmaHyperbola height inner_radius
        (mid_offset - thickness) (edge_offset - thickness)
  | CCShield.circular height inner_radius mid_radius outer_radius =>
      CCShield.circular height inner_radius
        (mid_radius + thickness) (outer_radius + thickness)
  | CCShield.flatTopCircular height arc_height inner_radius mid_radius outer_radius =>
      CCShield.flatTopCircular height arc_height inner_radius
        (mid_radius + thickness) (outer_radius + thickness)

/-- Embedding of `InboardFirstwallFCCS.find_points`: reject any source
object outside the six accepted classes; otherwise construct the
derived firstwall shield and append the source shield to the cut
attribute. -/
def InboardFirstwallFCCS.find_points (central_column_shield : ShieldObj)
    (thickness : ℚ) (cut : CutAttr ShieldObj) :
    Except ParamakError (CCShield × CutAttr ShieldObj) :=
  match central_column_shield with
  | ShieldObj.other _ =>
      Except.error (ParamakError.invalidParameter
        "InboardFirstwallFCCS.central_column_shield must be an instance of CenterColumnShieldCylinder, CenterColumnShieldHyperbola, CenterColumnShieldFlatTopHyperbola, CenterColumnShieldPlasmaHyperbola, CenterColumnShieldCircular, CenterColumnShieldFlatTopCircular")
  | ShieldObj.known s =>
      Except.ok (InboardFirstwallFCCS.firstwallShield s thickness,
        updateCut cut central_column_shield)

/-- Counterexample to claim C3 as stated: for a plasma-hyperbola source
shield with `mid_offset = 55`, `edge_offset = 90` and thickness 25, the
derived shield's offsets are 30 and 65 — decreased by the thickness —
not `55 + 25` and `90 + 25` as the claim's "increased by exactly the
constant radial thickness" requires. -/
theorem fccs_plasma_hyperbola_offsets_decrease :
    InboardFirstwallFCCS.firstwallShield (CCShield.plasmaHyperbola 1600 150 55 90) 25
      = CCShield.plasmaHyperbola 1600 150 30 65
    ∧ (30 : ℚ) ≠ 55 + 25 ∧ (65 : ℚ) ≠ 90 + 25 := by
  refine ⟨by norm_num [InboardFirstwallFCCS.firstwallShield], by norm_num, by norm_num⟩

/-- Claim C3 as amended: for every supported shield family the derived
firstwall keeps `height`, `inner_radius` (and `arc_height`) unchanged,
adds the thickness to `mid_radius` and/or `outer_radius`, and for the
plasma-hyperbola family subtracts the thickness from the two offset
parameters; a source object outside the six accepted classes raises
`InvalidParameter`. -/
theorem fccs_family_dispatch (thickness : ℚ) (cut : CutAttr ShieldObj) :
    (∀ h i o, InboardFirstwallFCCS.find_points
        (ShieldObj.known (CCShield.cylinder h i o)) thickness cut
      = Except.ok (CCShield.cylinder h i (o + thickness),
          updateCut cut (ShieldObj.known (CCShield.cylinder h i o))))
    ∧ (∀ h i m o, InboardFirstwallFCCS.find_points
        (ShieldObj.known (CCShield.hyperbola h i m o)) thickness cut
      = Except.ok (CCShield.hyperbola h i (m + thickness) (o + thickness),
          updateCut cut (ShieldObj.known (CCShield.hyperbola h i m o))))
    ∧ (∀ h a i m o, InboardFirstwallFCCS.find_points
        (ShieldObj.known (CCShield.flatTopHyperbola h a i m o)) thickness cut
      = Except.ok (CCShield.flatTopHyperbola h a i (m + thickness) (o + thickness),
          updateCut cut (ShieldObj.known (CCShield.flatTopHyperbola h a i m o))))
    ∧ (∀ h i mo eo, InboardFirstwallFCCS.find_points
        (ShieldObj.known (CCShield.plasmaHyperbola h i mo eo)) thickness cut
      = Except.ok (CCShield.plasmaHyperbola h i (mo - thickness) (eo - thickness),
          updateCut cut (ShieldObj.known (CCShield.plasmaHyperbola h i mo eo))))
    ∧ (∀ h i m o, InboardFirstwallFCCS.find_points
        (ShieldObj.known (CCShield.circular h i m o)) thickness cut
      = Except.ok (CCShield.circular h i (m + thickness) (o + thickness),
          updateCut cut (ShieldObj.known (CCShield.circular h i m o))))
    ∧ (∀ h a i m o, InboardFirstwallFCCS.find_points
        (ShieldObj.known (CCShield.flatTopCircular h a i m o)) thickness cut
      = Except.ok (CCShield.flatTopCircular h a i (m + thickness) (o + thickness),
          updateCut cut (ShieldObj.known (CCShield.flatTopCircular h a i m o))))
    ∧ (∀ tag, ∃ msg, InboardFirstwallFCCS.find_points
        (ShieldObj.other tag) thickness cut
      = Except.error (ParamakError.invalidParameter msg)) := by
  refine ⟨fun h i o => rfl, fun h i m o => rfl, fun h a i m o => rfl,
    fun h i mo eo => rfl, fun h i m o => rfl, fun h a i m o => rfl,
    fun tag => ⟨_, rfl⟩⟩

/-- Claim C9: after a successful `InboardFirstwallFCCS.find_points` the
source shield is a member of the resulting cut collection, and every
pre-existing cut entry is preserved. -/
theorem fccs_cut_always_contains_shield (s : CCShield) (thickness : ℚ)
    (cut : CutAttr ShieldObj) :
    InboardFirstwallFCCS.find_points (ShieldObj.known s) thickness cut
      = Except.ok (InboardFirstwallFCCS.firstwallShield s thickness,
          updateCut cut (ShieldObj.known s))
    ∧ ShieldObj.known s ∈ cutEntries (updateCut cut (ShieldObj.known s))
    ∧ ∀ x ∈ cutEntries cut, x ∈ cutEntries (updateCut cut (ShieldObj.known s)) := by
  refine ⟨rfl, ?_, ?_⟩
  · cases cut <;> simp [updateCut, cutEntries]
  · intro x hx
    cases cut <;> simp [updateCut, cutEntries] at hx ⊢ <;> simp [hx]

/-- Witness for C9: a pre-existing single cut (some other shape) is
preserved and the cylinder shield is appended. -/
theorem fccs_cut_always_contains_shield_witness :
    ShieldObj.known (CCShield.cylinder 600 50 100)
      ∈ cutEntries (updateCut (CutAttr.single (ShieldObj.other "divertor"))
          (ShieldObj.known (CCShield.cylinder 600 50 100)))
    ∧ ShieldObj.other "divertor"
      ∈ cutEntries (updateCut (CutAttr.single (ShieldObj.other "divertor"))
          (ShieldObj.known (CCShield.cylinder 600 50 100))) := by
  have h := fccs_cut_always_contains_shield (CCShield.cylinder 600 50 100) 25
    (CutAttr.single (ShieldObj.other "divertor"))
  exact ⟨h.2.1, h.2.2 _ (by simp [cutEntries])⟩

/-! ## Geometric primitives

The functions `rotate`, `extend` and `distance_between_two_points` live
in the paramak utilities module, which is not among the source files;
they are modelled from the spec (section 4.1). -/

/-- A 2D point in the poloidal cross-section plane. -/
abbrev Point : Type := ℝ × ℝ

/-- Modelled from the spec: `rotate(pivot, point, angle_radians)`
rotates `point` about `pivot` by the angle (positive anticlockwise),
via the standard 2D rotation matrix composed with translation to and
from the pivot.  (The function itself lives in the paramak utilities
module, absent from the source tree.) -/
noncomputable def rotate (origin point : Point) (angle : ℝ) : Point :=
  (origin.1 + Real.cos angle * (point.1 - origin.1)
      - Real.sin angle * (point.2 - origin.2),
   origin.2 + Real.sin angle * (point.1 - origin.1)
      + Real.cos angle * (point.2 - origin.2))

/-- Modelled from the spec: `distance_between_two_points(a, b)` is the
Euclidean distance.  (Utilities module, absent from the source tree.) -/
noncomputable def distance_between_two_points (a b : Point) : ℝ :=
  Real.sqrt ((b.1 - a.1) ^ 2 + (b.2 - a.2) ^ 2)

/-- The point value produced by `extend(a, b, d)` on its non-degenerate
domain: `a` plus `d` times the unit vector from `a` towards `b`. -/
noncomputable def extendVal (a b : Point) (d : ℝ) : Point :=
  (a.1 + d * (b.1 - a.1) / distance_between_two_points a b,
   a.2 + d * (b.2 - a.2) / distance_between_two_points a b)

/-- Modelled from the spec: `extend(from_point, through_point, distance)`
returns the point on the ray from `from_point` through `through_point`
at `distance` from `from_point`, and fails with a `DegenerateGeometry`
condition when the two points coincide (zero-length direction vector).
(Utilities module, absent from the source tree.) -/
noncomputable def extend (a b : Point) (d : ℝ) : Except GeomError Point :=
  if a = b then Except.error GeomError.degenerateGeometry
  else Except.ok (extendVal a b d)

lemma dist_sq_pos_of_ne {a b : Point} (hab : a ≠ b) :
    0 < (b.1 - a.1) ^ 2 + (b.2 - a.2) ^ 2 := by
  rcases lt_or_le 0 ((b.1 - a.1) ^ 2 + (b.2 - a.2) ^ 2) with h | h
  · exact h
  · exfalso
    have h1 : (b.1 - a.1) ^ 2 = 0 := by nlinarith [sq_nonneg (b.1 - a.1), sq_nonneg (b.2 - a.2)]
    have h2 : (b.2 - a.2) ^ 2 = 0 := by nlinarith [sq_nonneg (b.1 - a.1), sq_nonneg (b.2 - a.2)]
    apply hab
    have e1 : a.1 = b.1 := by nlinarith [sq_nonneg (b.1 - a.1)]
    have e2 : a.2 = b.2 := by nlinarith [sq_nonneg (b.2 - a.2)]
    exact Prod.ext e1.symm e2.symm ▸ rfl

/-- Claim C8: for distinct points and a nonnegative distance, `extend`
returns a point on the ray from `a` through `b` whose distance from `a`
(not from `b`) is exactly `d`; for coincident points it fails with
`DegenerateGeometry`. -/
theorem extend_on_ray_at_distance (a b : Point) (d : ℝ) :
    (a = b → extend a b d = Except.error GeomError.degenerateGeometry)
    ∧ (a ≠ b → 0 ≤ d →
        extend a b d = Except.ok (extendVal a b d)
        ∧ (∃ t : ℝ, 0 ≤ t
            ∧ extendVal a b d = (a.1 + t * (b.1 - a.1), a.2 + t * (b.2 - a.2)))
        ∧ distance_between_two_points a (extendVal a b d) = d) := by
  constructor
  · intro hab
    simp [extend, hab]
  · intro hab hd
    have hS : 0 < (b.1 - a.1) ^ 2 + (b.2 - a.2) ^ 2 := dist_sq_pos_of_ne hab
    have hD : 0 < distance_between_two_points a b := by
      unfold distance_between_two_points
      exact Real.sqrt_pos.mpr hS
    have hDne : distance_between_two_points a b ≠ 0 := ne_of_gt hD
    have hD2 : (distance_between_two_points a b) ^ 2
        = (b.1 - a.1) ^ 2 + (b.2 - a.2) ^ 2 := by
      unfold distance_between_two_points
      exact Real.sq_sqrt hS.le
    refine ⟨by simp [extend, hab], ?_, ?_⟩
    · refine ⟨d / distance_between_two_points a b, div_nonneg hd hD.le, ?_⟩
      unfold extendVal
      refine Prod.ext ?_ ?_ <;> simp <;> ring
    · unfold distance_between_two_points extendVal
      have hinner :
          (a.1 + d * (b.1 - a.1) / distance_between_two_points a b - a.1) ^ 2
          + (a.2 + d * (b.2 - a.2) / distance_between_two_points a b - a.2) ^ 2
          = d ^ 2 := by
        field_simp
        nlinarith [hD2]
      rw [hinner]
      exact Real.sqrt_sq hd

/-- Witness for C8: from the origin through (3, 4), distance 10 yields
a point at distance exactly 10 from the origin. -/
theorem extend_on_ray_at_distance_witness :
    distance_between_two_points (0, 0) (extendVal (0, 0) (3, 4) 10) = 10 := by
  have hne : ((0, 0) : Point) ≠ (3, 4) := by
    simp [Prod.ext_iff]
  exact (((extend_on_ray_at_distance (0, 0) (3, 4) 10).2 hne (by norm_num))).2.2

/-! ## ITER-type divertor

Embedding of `parametric_components/divertor_ITER.py`.  The dome and
casing helpers call the utilities' `extend`, which fails on coincident
points; the helpers and `find_points` are therefore `Except`-valued,
propagating the `DegenerateGeometry` failure exactly where the source
raises. -/

/-- Parameters of `ITERtypeDivertor.__init__` (the `anchors`,
`coverages`, `radii`, `lengths` and `tilts` tuples unpacked into the
`ivt_*` / `ovt_*` attributes, as in the source). -/
structure ITERtypeDivertor where
  ivt_anchor : Point
  ovt_anchor : Point
  ivt_coverage : ℝ
  ovt_coverage : ℝ
  ivt_radius : ℝ
  ovt_radius : ℝ
  ivt_length : ℝ
  ovt_length : ℝ
  ivt_tilt : ℝ
  ovt_tilt : ℝ
  dome : Bool
  dome_height : ℝ
  dome_length : ℝ
  dome_thickness : ℝ
  dome_pos : ℝ

/-- Degrees to radians, as `math.radians`. -/
noncomputable def radiansOf (deg : ℝ) : ℝ := deg * Real.pi / 180

/-- Embedding of `ITERtypeDivertor._create_vertical_target_points`. -/
noncomputable def createVerticalTargetPoints (anchor : Point)
    (coverage tilt radius length : ℝ) : List Point :=
  let base_circle_inner : Point := (anchor.1 + radius, anchor.2)
  let A := rotate base_circle_inner anchor coverage
  let A_prime := rotate base_circle_inner anchor (coverage / 2)
  let c_coord : Point := (anchor.1, anchor.2 - length)
  let A_tilted := rotate anchor A tilt
  let A_prime_tilted := rotate anchor A_prime tilt
  let c_tilted := rotate anchor c_coord tilt
  [A_tilted, A_prime_tilted, anchor, c_tilted]

lemma except_bind_ok {ε α β : Type} (a : α) (f : α → Except ε β) :
    (Except.ok a : Except ε α) >>= f = f a := rfl

lemma except_pure_eq_ok {ε α : Type} (a : α) :
    (pure a : Except ε α) = Except.ok a := rfl

/-- Embedding of `ITERtypeDivertor._create_dome_points`; each `extend`
call propagates its `DegenerateGeometry` failure. -/
noncomputable def createDomePoints (c_coord F : Point)
    (dome_length dome_height dome_thickness dome_pos : ℝ) :
    Except GeomError (List (Point × Conn)) := do
  let dome_base ← extend c_coord F
    (dome_pos * distance_between_two_points F c_coord)
  let dome_lower_point ← extend dome_base
    (rotate dome_base c_coord (-(Real.pi / 2))) dome_height
  let D_prime ← extend dome_base dome_lower_point
    (dome_height + dome_thickness)
  let D ← extend dome_lower_point
    (rotate dome_lower_point D_prime (Real.pi / 2)) (dome_length / 2)
  let E ← extend dome_lower_point
    (rotate dome_lower_point D_prime (-(Real.pi / 2))) (dome_length / 2)
  pure [(D, Conn.circle), (D_prime, Conn.circle), (E, Conn.straight)]

/-- Embedding of `ITERtypeDivertor._create_casing_points`; each
`extend` call propagates its `DegenerateGeometry` failure. -/
noncomputable def createCasingPoints (anchors : Point × Point)
    (c_coord F : Point) (targets_lengths : ℝ × ℝ) :
    Except GeomError (List (Point × Conn)) := do
  let B := anchors.1
  let G := anchors.2
  let h1 := targets_lengths.1
  let h2 := targets_lengths.2
  let I_pt ← extend c_coord F (distance_between_two_points F c_coord * 1.1)
  let J ← extend G F (h2 * 1.2)
  let K ← extend B c_coord (h1 * 1.2)
  let L ← extend F c_coord (distance_between_two_points F c_coord * 1.1)
  pure [(I_pt, Conn.straight), (J, Conn.straight), (K, Conn.straight), (L, Conn.straight)]

/-- The tagged inner-vertical-target points of `find_points`
(connections circle, circle, straight, straight appended index-wise). -/
noncomputable def ITERtypeDivertor.ivt_tagged (dv : ITERtypeDivertor) :
    List (Point × Conn) :=
  (createVerticalTargetPoints dv.ivt_anchor
    (radiansOf dv.ivt_coverage) (radiansOf dv.ivt_tilt)
    (-dv.ivt_radius) dv.ivt_length).zip
    [Conn.circle, Conn.circle, Conn.straight, Conn.straight]

/-- The tagged outer-vertical-target points of `find_points`
(connections straight, circle, circle, straight appended index-wise,
then the list flipped with `np.flipud`). -/
noncomputable def ITERtypeDivertor.ovt_tagged (dv : ITERtypeDivertor) :
    List (Point × Conn) :=
  ((createVerticalTargetPoints dv.ovt_anchor
    (-(radiansOf dv.ovt_coverage)) (radiansOf dv.ovt_tilt)
    dv.ovt_radius dv.ovt_length).zip
    [Conn.straight, Conn.circle, Conn.circle, Conn.straight]).reverse

/-- The coordinate `ivt_points[-1][:2]` used by `find_points` as the
dome's inner end: the inner target's tilted leg endpoint. -/
noncomputable def ITERtypeDivertor.inner_leg_end (dv : ITERtypeDivertor) : Point :=
  (dv.ivt_tagged.getLastD ((0, 0), Conn.straight)).1

/-- The coordinate `ovt_points[0][:2]` (after the flip) used by
`find_points` as the dome's outer end: the outer target's tilted leg
endpoint. -/
noncomputable def ITERtypeDivertor.outer_leg_end (dv : ITERtypeDivertor) : Point :=
  (dv.ovt_tagged.headD ((0, 0), Conn.straight)).1

/-- The dome base point of `_create_dome_points` on the success path
(the value of its first `extend` call, for the arguments `find_points`
passes). -/
noncomputable def ITERtypeDivertor.dome_base (dv : ITERtypeDivertor) : Point :=
  extendVal dv.inner_leg_end dv.outer_leg_end
    (dv.dome_pos * distance_between_two_points dv.outer_leg_end dv.inner_leg_end)

/-- The dome lower point of `_create_dome_points` on the success path. -/
noncomputable def ITERtypeDivertor.dome_lower_point (dv : ITERtypeDivertor) : Point :=
  extendVal dv.dome_base
    (rotate dv.dome_base dv.inner_leg_end (-(Real.pi / 2))) dv.dome_height

/-- The dome point D' of `_create_dome_points` on the success path. -/
noncomputable def ITERtypeDivertor.dome_D_prime (dv : ITERtypeDivertor) : Point :=
  extendVal dv.dome_base dv.dome_lower_point (dv.dome_height + dv.dome_thickness)

/-- Embedding of `ITERtypeDivertor.find_points`: inner target points
(tagged circle, circle, straight, straight), flipped outer target
points (tagged straight, circle, circle, straight before the flip),
optional dome points between them, and the casing points, concatenated
as in the source; any `DegenerateGeometry` failure of the dome or
casing construction propagates and no point list is produced. -/
noncomputable def ITERtypeDivertor.find_points (dv : ITERtypeDivertor) :
    Except GeomError (List (Point × Conn)) := do
  let c_coord := dv.inner_leg_end
  let F := dv.outer_leg_end
  let dome_points ← if dv.dome then
    createDomePoints c_coord F dv.dome_length dv.dome_height dv.dome_thickness dv.dome_pos
    else pure []
  let casing_points ← createCasingPoints (dv.ivt_anchor, dv.ovt_anchor)
    c_coord F (dv.ivt_length, dv.ovt_length)
  pure (dv.ivt_tagged ++ dome_points ++ dv.ovt_tagged ++ casing_points)

/-- Formalisation of claim C4's construction recipe for one vertical
target: base circle point at `anchor + radius` along x; two arc points
obtained from it by the full coverage and half the coverage rotations;
leg endpoint at `anchor - (0, length)`; the three resulting points
rotated about the anchor by the tilt; output order
`[arc point A, arc point A', anchor, leg endpoint]`. -/
noncomputable def verticalTargetClaimPoints (anchor : Point)
    (coverage tilt radius length : ℝ) : List Point :=
  [ rotate anchor (rotate (anchor.1 + radius, anchor.2) anchor coverage) tilt,
    rotate anchor (rotate (anchor.1 + radius, anchor.2) anchor (coverage / 2)) tilt,
    anchor,
    rotate anchor (anchor.1, anchor.2 - length) tilt ]

/-- Claim C4: the generator's vertical-target points are exactly the
four points of the claimed construction, in the claimed order. -/
theorem divertor_vertical_target_points (anchor : Point)
    (coverage tilt radius length : ℝ) :
    createVerticalTargetPoints anchor coverage tilt radius length
      = verticalTargetClaimPoints anchor coverage tilt radius length := rfl

/-- Claim C5: whenever the dome and casing `extend` calls are
non-degenerate (their from/through points distinct, so the source does
not raise), `find_points` sets the profile to the inner-target points
(exactly 4), then the dome points (exactly 3 when the dome is enabled,
0 when disabled), then the outer-target points in reversed (flipped)
order (exactly 4), then the casing points (exactly 4), concatenated in
that fixed order. -/
theorem divertor_find_points_structure (dv : ITERtypeDivertor)
    (hcF : dv.inner_leg_end ≠ dv.outer_leg_end)
    (hdb : dv.dome = true →
      dv.dome_base ≠ rotate dv.dome_base dv.inner_leg_end (-(Real.pi / 2)))
    (hdl : dv.dome = true → dv.dome_base ≠ dv.dome_lower_point)
    (hdD : dv.dome = true →
      dv.dome_lower_point ≠ rotate dv.dome_lower_point dv.dome_D_prime (Real.pi / 2))
    (hdE : dv.dome = true →
      dv.dome_lower_point ≠ rotate dv.dome_lower_point dv.dome_D_prime (-(Real.pi / 2)))
    (hGF : dv.ovt_anchor ≠ dv.outer_leg_end)
    (hBc : dv.ivt_anchor ≠ dv.inner_leg_end) :
    ∃ ivt domePts ovtRaw casing,
      dv.find_points = Except.ok (ivt ++ domePts ++ ovtRaw.reverse ++ casing)
      ∧ ivt = (createVerticalTargetPoints dv.ivt_anchor
          (radiansOf dv.ivt_coverage) (radiansOf dv.ivt_tilt)
          (-dv.ivt_radius) dv.ivt_length).zip
          [Conn.circle, Conn.circle, Conn.straight, Conn.straight]
      ∧ ovtRaw = (createVerticalTargetPoints dv.ovt_anchor
          (-(radiansOf dv.ovt_coverage)) (radiansOf dv.ovt_tilt)
          dv.ovt_radius dv.ovt_length).zip
          [Conn.straight, Conn.circle, Conn.circle, Conn.straight]
      ∧ ivt.length = 4
      ∧ domePts.length = (if dv.dome then 3 else 0)
      ∧ ovtRaw.length = 4
      ∧ casing.length = 4 := by
  have hFc : dv.outer_leg_end ≠ dv.inner_leg_end := Ne.symm hcF
  have hcase : createCasingPoints (dv.ivt_anchor, dv.ovt_anchor)
      dv.inner_leg_end dv.outer_leg_end (dv.ivt_length, dv.ovt_length)
      = Except.ok
        [ (extendVal dv.inner_leg_end dv.outer_leg_end
            (distance_between_two_points dv.outer_leg_end dv.inner_leg_end * 1.1),
            Conn.straight),
          (extendVal dv.ovt_anchor dv.outer_leg_end (dv.ovt_length * 1.2),
            Conn.straight),
          (extendVal dv.ivt_anchor dv.inner_leg_end (dv.ivt_length * 1.2),
            Conn.straight),
          (extendVal dv.outer_leg_end dv.inner_leg_end
            (distance_between_two_points dv.outer_leg_end dv.inner_leg_end * 1.1),
            Conn.straight) ] := by
    simp [createCasingPoints, extend, hcF, hFc, hGF, hBc, except_bind_ok,
      except_pure_eq_ok]
  cases hd : dv.dome with
  | false =>
      refine ⟨(createVerticalTargetPoints dv.ivt_anchor
          (radiansOf dv.ivt_coverage) (radiansOf dv.ivt_tilt)
          (-dv.ivt_radius) dv.ivt_length).zip
          [Conn.circle, Conn.circle, Conn.straight, Conn.straight],
        [],
        (createVerticalTargetPoints dv.ovt_anchor
          (-(radiansOf dv.ovt_coverage)) (radiansOf dv.ovt_tilt)
          dv.ovt_radius dv.ovt_length).zip
          [Conn.straight, Conn.circle, Conn.circle, Conn.straight],
        [ (extendVal dv.inner_leg_end dv.outer_leg_end
            (distance_between_two_points dv.outer_leg_end dv.inner_leg_end * 1.1),
            Conn.straight),
          (extendVal dv.ovt_anchor dv.outer_leg_end (dv.ovt_length * 1.2),
            Conn.straight),
          (extendVal dv.ivt_anchor dv.inner_leg_end (dv.ivt_length * 1.2),
            Conn.straight),
          (extendVal dv.outer_leg_end dv.inner_leg_end
            (distance_between_two_points dv.outer_leg_end dv.inner_leg_end * 1.1),
            Conn.straight) ],
        ?_, rfl, rfl, rfl, by simp [hd], rfl, rfl⟩
      simp [ITERtypeDivertor.find_points, hd, hcase, except_bind_ok,
        except_pure_eq_ok, ITERtypeDivertor.ivt_tagged, ITERtypeDivertor.ovt_tagged]
  | true =>
      have hdome : createDomePoints dv.inner_leg_end dv.outer_leg_end
          dv.dome_length dv.dome_height dv.dome_thickness dv.dome_pos
          = Except.ok
            [ (extendVal dv.dome_lower_point
                (rotate dv.dome_lower_point dv.dome_D_prime (Real.pi / 2))
                (dv.dome_length / 2), Conn.circle),
              (dv.dome_D_prime, Conn.circle),
              (extendVal dv.dome_lower_point
                (rotate dv.dome_lower_point dv.dome_D_prime (-(Real.pi / 2)))
                (dv.dome_length / 2), Conn.straight) ] := by
        have h1 := hdb hd
        have h2 := hdl hd
        have h3 := hdD hd
        have h4 := hdE hd
        simp only [ITERtypeDivertor.dome_base, ITERtypeDivertor.dome_lower_point,
          ITERtypeDivertor.dome_D_prime] at h1 h2 h3 h4 ⊢
        simp [createDomePoints, extend, hcF, h1, h2, h3, h4, except_bind_ok,
          except_pure_eq_ok]
      refine ⟨(createVerticalTargetPoints dv.ivt_anchor
          (radiansOf dv.ivt_coverage) (radiansOf dv.ivt_tilt)
          (-dv.ivt_radius) dv.ivt_length).zip
          [Conn.circle, Conn.circle, Conn.straight, Conn.straight],
        [ (extendVal dv.dome_lower_point
            (rotate dv.dome_lower_point dv.dome_D_prime (Real.pi / 2))
            (dv.dome_length / 2), Conn.circle),
          (dv.dome_D_prime, Conn.circle),
          (extendVal dv.dome_lower_point
            (rotate dv.dome_lower_point dv.dome_D_prime (-(Real.pi / 2)))
            (dv.dome_length / 2), Conn.straight) ],
        (createVerticalTargetPoints dv.ovt_anchor
          (-(radiansOf dv.ovt_coverage)) (radiansOf dv.ovt_tilt)
          dv.ovt_radius dv.ovt_length).zip
          [Conn.straight, Conn.circle, Conn.circle, Conn.straight],
        [ (extendVal dv.inner_leg_end dv.outer_leg_end
            (distance_between_two_points dv.outer_leg_end dv.inner_leg_end * 1.1),
            Conn.straight),
          (extendVal dv.ovt_anchor dv.outer_leg_end (dv.ovt_length * 1.2),
            Conn.straight),
          (extendVal dv.ivt_anchor dv.inner_leg_end (dv.ivt_length * 1.2),
            Conn.straight),
          (extendVal dv.outer_leg_end dv.inner_leg_end
            (distance_between_two_points dv.outer_leg_end dv.inner_leg_end * 1.1),
            Conn.straight) ],
        ?_, rfl, rfl, rfl, by simp [hd], rfl, rfl⟩
      simp [ITERtypeDivertor.find_points, hd, hdome, hcase, except_bind_ok,
        except_pure_eq_ok, ITERtypeDivertor.ivt_tagged, ITERtypeDivertor.ovt_tagged]

/-- A concrete divertor parameterisation for exercising
`divertor_find_points_structure`: the default anchors, coverages, radii
and lengths, zero tilts (so the leg endpoints are exactly computable)
and the dome disabled. -/
noncomputable def divertorZeroTilt : ITERtypeDivertor :=
  { ivt_anchor := (450, -300)
    ovt_anchor := (561, -367)
    ivt_coverage := 90
    ovt_coverage := 180
    ivt_radius := 50
    ovt_radius := 25
    ivt_length := 78
    ovt_length := 87
    ivt_tilt := 0
    ovt_tilt := 0
    dome := false
    dome_height := 43
    dome_length := 66
    dome_thickness := 10
    dome_pos := 1 / 2 }

/-- Witness for C5: at `divertorZeroTilt` every hypothesis holds (the
leg endpoints are (450, -378) and (561, -454), distinct from each other
and from the anchors; the dome is disabled) and `find_points` succeeds
with 4 + 0 + 4 + 4 = 12 profile points. -/
theorem divertor_find_points_structure_witness :
    (ITERtypeDivertor.find_points divertorZeroTilt).map List.length
      = Except.ok 12 := by
  have hc : divertorZeroTilt.inner_leg_end = (450, -378) := by
    show rotate (450, -300) (450, -300 - 78) (radiansOf 0) = (450, -378)
    simp [rotate, radiansOf]
    norm_num
  have hF : divertorZeroTilt.outer_leg_end = (561, -454) := by
    show rotate (561, -367) (561, -367 - 87) (radiansOf 0) = (561, -454)
    simp [rotate, radiansOf]
    norm_num
  have h1 : divertorZeroTilt.inner_leg_end ≠ divertorZeroTilt.outer_leg_end := by
    rw [hc, hF]
    norm_num [Prod.ext_iff]
  have hG : divertorZeroTilt.ovt_anchor ≠ divertorZeroTilt.outer_leg_end := by
    rw [hF]
    show ((561 : ℝ), (-367 : ℝ)) ≠ ((561 : ℝ), (-454 : ℝ))
    norm_num [Prod.ext_iff]
  have hB : divertorZeroTilt.ivt_anchor ≠ divertorZeroTilt.inner_leg_end := by
    rw [hc]
    show ((450 : ℝ), (-300 : ℝ)) ≠ ((450 : ℝ), (-378 : ℝ))
    norm_num [Prod.ext_iff]
  obtain ⟨ivt, domePts, ovtRaw, casing, heq, hivt, hovt, l1, l2, l3, l4⟩ :=
    divertor_find_points_structure divertorZeroTilt h1
      (by simp [divertorZeroTilt]) (by simp [divertorZeroTilt])
      (by simp [divertorZeroTilt]) (by simp [divertorZeroTilt]) hG hB
  rw [heq]
  simp [Except.map, l1, l2, l3, l4, divertorZeroTilt]

end Paramak
